import Mathlib

/-!
Verification of `praw/models/reddit/subreddit.py`: a thin object-oriented
binding of the subreddit resource of a remote HTTP API.  The module builds
request payloads and forwards them to an external transport (`Reddit` client)
and a pagination collaborator (`ListingGenerator`).  We embed the module
shallowly: each method is a pure function from its receiver (and explicit
transport stub) to an updated receiver together with the list of requests it
issues and its outcome (a decoded body or a raised `TypeError`).
-/

/-- A decoded response body, opaque to this module (the transport decodes it). -/
abbrev Body := String

/-- Modelled from the spec: `API_PATH` (defined in `praw/const.py`, which is not
part of the sources here) is a static mapping from symbolic endpoint names to
URL templates with named placeholders, resolved by simple string formatting.
A formatted URL is represented symbolically by the endpoint key together with
the placeholder substitutions applied to the template. -/
structure Url where
  key : String
  args : List (String × String)
deriving DecidableEq, Repr

/-- A value occurring in a request payload: Python `str`, `bool`, `int` or
`None` values are the only ones this module ever places in a payload. -/
inductive Val where
  | str (s : String)
  | bool (b : Bool)
  | nat (n : Nat)
  | none
deriving DecidableEq, Repr

/-- A request payload: an insertion-ordered Python `dict`, embedded as an
association list in insertion order. -/
abbrev Payload := List (String × Val)

/-- A request handed to a collaborator: a `POST` or `GET` on the transport, or
a delegation to the pagination collaborator (`ListingGenerator`), which
internally issues as many paginated `GET`s as needed. -/
inductive Request where
  | post (url : Url) (data : Payload)
  | get (url : Url) (params : Payload)
  | listing (url : Url) (params : Payload)
deriving DecidableEq, Repr

/-- The only error this module raises locally: Python `TypeError` with a
message. -/
inductive PyErr where
  | typeError (msg : String)
deriving DecidableEq, Repr

/-- The observable effect of one method call: the requests issued to the
collaborators, in order, and the outcome of the call (normal return or raised
error).  A raised error aborts the method, so requests that would follow it
never appear in the trace. -/
structure Effect (α : Type) where
  trace : List Request
  result : Except PyErr α

/-- Modelled from the spec: the external `Reddit` transport collaborator
exposes `get(url, params)` returning an iterable of decoded items and
`post(url, data)` returning a decoded response body; `listing` stands for the
sequence of items the pagination collaborator produces for given url and
params.  All are opaque stubs. -/
structure Reddit where
  post : Url → Payload → Body
  get : Url → Payload → List Body
  listing : Url → Payload → List Body

/-- Modelled from the spec: `ListingGenerator` (a separate module, not among
the sources here) produces a lazy, finite sequence of decoded listing items
from a paginated endpoint, given the transport handle, an endpoint URL, a
limit and query parameters. -/
def ListingGenerator (reddit : Reddit) (url : Url) (_limit : Option Nat)
    (params : Payload) : List Body :=
  reddit.listing url params

/-- Python truthiness of a `str`-or-`None` value: `None` and the empty string
are falsy, every other string is truthy. -/
def truthyStr : Option String → Bool
  | Option.none => false
  | Option.some s => !s.isEmpty

/-- A target object ("thing") passed into action methods.  The module reads
only its runtime class name (`thing.__class__.__name__`), its `fullname`
attribute, and its string form (`str(thing)`). -/
structure Thing where
  className : String
  fullname : String
  str : String
deriving DecidableEq, Repr

/-- Modelled from the spec: a previously-fetched attribute bundle (`_data`),
a non-empty mapping of attributes of the resource, hence truthy; the only
attribute this module reads from it is the display name it carries. -/
structure DataBundle where
  display_name : String
deriving DecidableEq, Repr

/-- Python truthiness of the optional `_data` argument: `None` is falsy, a
previously-fetched (non-empty) attribute bundle is truthy. -/
def truthyData : Option DataBundle → Bool
  | Option.none => false
  | Option.some _ => true

/-- The `Subreddit` resource: its display name and the request path derived
once at construction. -/
structure Subreddit where
  display_name : String
  _path : Url
deriving DecidableEq, Repr

/-- Modelled from the spec: the string form of the resource (`str(subreddit)`,
inherited from `RedditBase`, not among the sources here) is its display name. -/
def Subreddit.str (s : Subreddit) : String :=
  s.display_name

/-- `SubredditFlair`: the flair view, holding the cache-busting counter
(initialised to 0) and a back-reference to the owning subreddit, in that
field order (`__init__` sets `_unique_counter` first). -/
structure SubredditFlair where
  _unique_counter : Nat
  subreddit : Subreddit
deriving DecidableEq, Repr

/-- `SubredditModeration`: holds only the back-reference to the subreddit. -/
structure SubredditModeration where
  subreddit : Subreddit
deriving DecidableEq, Repr

/-- `SubredditRelationship`: a relationship view, holding the relationship
name, the back-reference and the cache-busting counter, in `__init__` order. -/
structure SubredditRelationship where
  relationship : String
  subreddit : Subreddit
  _unique_counter : Nat
deriving DecidableEq, Repr

/-- The whole object aggregate a `Subreddit.__init__` call produces: the
resource itself, the flair and moderation helpers, and the six relationship
views installed by `_prepare_relationships`. -/
structure SubredditState where
  subreddit : Subreddit
  flair : SubredditFlair
  mod : SubredditModeration
  banned : SubredditRelationship
  contributor : SubredditRelationship
  moderator : SubredditRelationship
  muted : SubredditRelationship
  wikibanned : SubredditRelationship
  wikicontributor : SubredditRelationship
deriving DecidableEq, Repr

/-- `Subreddit.__init__`: requires exactly one of `display_name` / `_data` to
be truthy (`bool(display_name) == bool(_data)` raises `TypeError`), sets the
display name from whichever is given (with `_data`, the attribute comes from
the bundle via the base initializer), derives the path from the `subreddit`
template, and eagerly builds the six relationship views and the flair and
moderation helpers. -/
def Subreddit.init (_reddit : Reddit) (display_name : Option String)
    (_data : Option DataBundle) : Except PyErr SubredditState :=
  if truthyStr display_name = truthyData _data then
    Except.error (PyErr.typeError "Either display_name or _data must be provided.")
  else
    let name : String :=
      if truthyStr display_name then display_name.getD ""
      else
        match _data with
        | Option.some b => b.display_name
        | Option.none => ""
    let sub : Subreddit := ⟨name, Url.mk "subreddit" [("subreddit", name)]⟩
    Except.ok
      { subreddit := sub
        flair := ⟨0, sub⟩
        mod := ⟨sub⟩
        banned := ⟨"banned", sub, 0⟩
        contributor := ⟨"contributor", sub, 0⟩
        moderator := ⟨"moderator", sub, 0⟩
        muted := ⟨"muted", sub, 0⟩
        wikibanned := ⟨"wikibanned", sub, 0⟩
        wikicontributor := ⟨"wikicontributor", sub, 0⟩ }

/-- `Subreddit.submit`: raises `TypeError` when `bool(selftext) == bool(url)`
(before any transport call); otherwise builds the payload
`sr, resubmit, sendreplies, title` plus `kind=self, text=selftext` when
`selftext is not None`, else `kind=link, url=url`, issues one POST to the
`submit` endpoint and returns the decoded response.  Python defaults:
`selftext=None, url=None, resubmit=True, send_replies=True`. -/
def Subreddit.submit (reddit : Reddit) (s : Subreddit) (title : String)
    (selftext url : Option String) (resubmit send_replies : Bool) :
    Effect Body :=
  if truthyStr selftext = truthyStr url then
    { trace := []
      result := Except.error
        (PyErr.typeError "Either selftext or url must be provided.") }
  else
    let data : Payload :=
      [("sr", Val.str s.str), ("resubmit", Val.bool resubmit),
       ("sendreplies", Val.bool send_replies), ("title", Val.str title)] ++
      (match selftext with
       | Option.some t => [("kind", Val.str "self"), ("text", Val.str t)]
       | Option.none =>
         [("kind", Val.str "link"),
          ("url", match url with
                  | Option.some u => Val.str u
                  | Option.none => Val.none)])
    { trace := [Request.post (Url.mk "submit" []) data]
      result := Except.ok (reddit.post (Url.mk "submit" []) data) }

/-- `SubredditFlair.__iter__`: formats the `flairlist` endpoint with the
string form of the subreddit, passes `unique = _unique_counter` as params,
increments the counter, and yields the items of the pagination collaborator. -/
def SubredditFlair.iter (reddit : Reddit) (f : SubredditFlair) :
    SubredditFlair × Effect (List Body) :=
  let url := Url.mk "flairlist" [("subreddit", f.subreddit.str)]
  let params : Payload := [("unique", Val.nat f._unique_counter)]
  ({ f with _unique_counter := f._unique_counter + 1 },
   { trace := [Request.listing url params]
     result := Except.ok (ListingGenerator reddit url Option.none params) })

/-- `SubredditFlair.set`: builds `css_class, text` plus `link = thing.fullname`
when the class name of the target is `Submission`, else `name = str(thing)`, and
issues one POST to the `flair` endpoint (return value discarded).  Python
defaults: `text` and `css_class` both the empty string. -/
def SubredditFlair.set (_reddit : Reddit) (f : SubredditFlair) (thing : Thing)
    (text css_class : String) : SubredditFlair × Effect Unit :=
  let data : Payload :=
    [("css_class", Val.str css_class), ("text", Val.str text)] ++
    (if thing.className = "Submission" then [("link", Val.str thing.fullname)]
     else [("name", Val.str thing.str)])
  let url := Url.mk "flair" [("subreddit", f.subreddit.str)]
  (f, { trace := [Request.post url data], result := Except.ok () })

/-- `SubredditModeration.approve`: one POST `id = thing.fullname` to the
`approve` endpoint, response not returned. -/
def SubredditModeration.approve (_reddit : Reddit) (m : SubredditModeration)
    (thing : Thing) : SubredditModeration × Effect Unit :=
  let data : Payload := [("id", Val.str thing.fullname)]
  (m, { trace := [Request.post (Url.mk "approve" []) data]
        result := Except.ok () })

/-- `SubredditModeration.distinguish`: one POST `how, id = thing.fullname` to
the `distinguish` endpoint, returning the decoded response.  Python default:
`how=yes`. -/
def SubredditModeration.distinguish (reddit : Reddit)
    (m : SubredditModeration) (thing : Thing) (how : String) :
    SubredditModeration × Effect Body :=
  let data : Payload := [("how", Val.str how), ("id", Val.str thing.fullname)]
  (m, { trace := [Request.post (Url.mk "distinguish" []) data]
        result := Except.ok (reddit.post (Url.mk "distinguish" []) data) })

/-- `SubredditModeration.ignore_reports`: one POST `id = thing.fullname` to
the `ignore_reports` endpoint, response not returned. -/
def SubredditModeration.ignoreReports (_reddit : Reddit)
    (m : SubredditModeration) (thing : Thing) :
    SubredditModeration × Effect Unit :=
  let data : Payload := [("id", Val.str thing.fullname)]
  (m, { trace := [Request.post (Url.mk "ignore_reports" []) data]
        result := Except.ok () })

/-- `SubredditModeration.remove`: one POST `id = thing.fullname, spam =
bool(spam)` to the `remove` endpoint, response not returned.  Python default:
`spam=False`. -/
def SubredditModeration.remove (_reddit : Reddit) (m : SubredditModeration)
    (thing : Thing) (spam : Bool) : SubredditModeration × Effect Unit :=
  let data : Payload := [("id", Val.str thing.fullname), ("spam", Val.bool spam)]
  (m, { trace := [Request.post (Url.mk "remove" []) data]
        result := Except.ok () })

/-- `SubredditModeration.undistinguish`: defined as
`self.distinguish(thing, how=no)`, returning its json response. -/
def SubredditModeration.undistinguish (reddit : Reddit)
    (m : SubredditModeration) (thing : Thing) :
    SubredditModeration × Effect Body :=
  SubredditModeration.distinguish reddit m thing "no"

/-- `SubredditModeration.unignore_reports`: one POST `id = thing.fullname` to
the `unignore_reports` endpoint, response not returned. -/
def SubredditModeration.unignoreReports (_reddit : Reddit)
    (m : SubredditModeration) (thing : Thing) :
    SubredditModeration × Effect Unit :=
  let data : Payload := [("id", Val.str thing.fullname)]
  (m, { trace := [Request.post (Url.mk "unignore_reports" []) data]
        result := Except.ok () })

/-- `SubredditRelationship.__iter__`: formats the endpoint named after the
relationship with the string form of the subreddit, passes
`unique = _unique_counter` as params, increments the counter, and yields the
items of the GET of the transport. -/
def SubredditRelationship.iter (reddit : Reddit)
    (r : SubredditRelationship) :
    SubredditRelationship × Effect (List Body) :=
  let url := Url.mk r.relationship [("subreddit", r.subreddit.str)]
  let params : Payload := [("unique", Val.nat r._unique_counter)]
  ({ r with _unique_counter := r._unique_counter + 1 },
   { trace := [Request.get url params]
     result := Except.ok (reddit.get url params) })

/-- `SubredditRelationship.add`: one POST `name = str(redditor),
r = str(subreddit), type = relationship` to the `friend` endpoint, returning
the decoded response. -/
def SubredditRelationship.add (reddit : Reddit) (r : SubredditRelationship)
    (redditor : Thing) : SubredditRelationship × Effect Body :=
  let data : Payload :=
    [("name", Val.str redditor.str), ("r", Val.str r.subreddit.str),
     ("type", Val.str r.relationship)]
  (r, { trace := [Request.post (Url.mk "friend" []) data]
        result := Except.ok (reddit.post (Url.mk "friend" []) data) })

/-- `SubredditRelationship.remove`: one POST `name = str(redditor),
r = str(subreddit), type = relationship` to the `unfriend` endpoint, returning
the decoded response. -/
def SubredditRelationship.remove (reddit : Reddit)
    (r : SubredditRelationship) (redditor : Thing) :
    SubredditRelationship × Effect Body :=
  let data : Payload :=
    [("name", Val.str redditor.str), ("r", Val.str r.subreddit.str),
     ("type", Val.str r.relationship)]
  (r, { trace := [Request.post (Url.mk "unfriend" []) data]
        result := Except.ok (reddit.post (Url.mk "unfriend" []) data) })

/-- A concrete transport stub used to instantiate theorems with hypotheses on
concrete inputs. -/
def stubReddit : Reddit :=
  { post := fun _ _ => "decoded-post-body"
    get := fun _ _ => ["member"]
    listing := fun _ _ => ["flair-item"] }

/-- A concrete non-submission target used on concrete inputs. -/
def stubRedditor : Thing :=
  { className := "Redditor", fullname := "t2_abc", str := "spez" }

/-- A concrete submission-like target used on concrete inputs. -/
def stubSubmission : Thing :=
  { className := "Submission", fullname := "t3_xyz", str := "t3_xyz-str" }

/-- A concrete subreddit value used on concrete inputs. -/
def stubSub : Subreddit :=
  ⟨"redditdev", Url.mk "subreddit" [("subreddit", "redditdev")]⟩

/-- The concrete object aggregate produced by constructing `stubSub` from its
display name. -/
def stubState : SubredditState :=
  { subreddit := stubSub
    flair := ⟨0, stubSub⟩
    mod := ⟨stubSub⟩
    banned := ⟨"banned", stubSub, 0⟩
    contributor := ⟨"contributor", stubSub, 0⟩
    moderator := ⟨"moderator", stubSub, 0⟩
    muted := ⟨"muted", stubSub, 0⟩
    wikibanned := ⟨"wikibanned", stubSub, 0⟩
    wikicontributor := ⟨"wikicontributor", stubSub, 0⟩ }

/-- A non-empty string is Python-truthy. -/
theorem truthyStr_some_of_ne (s : String) (h : s ≠ "") :
    truthyStr (Option.some s) = true := by
  have he : s.isEmpty = false := by
    cases hb : s.isEmpty with
    | false => rfl
    | true => exact absurd ((String.isEmpty_iff s).mp hb) h
  simp [truthyStr, he]

/-- Claim C1: whenever both `selftext` and `url` are set or neither is set
(Python truthiness, the mutual-exclusion test of the code, under which the
empty string counts as unset), `submit` raises `TypeError` and its request
trace is empty, so in particular no POST is issued before the error. -/
theorem C1_submit_mutual_exclusion (reddit : Reddit) (s : Subreddit)
    (title : String) (selftext url : Option String)
    (resubmit send_replies : Bool)
    (h : truthyStr selftext = truthyStr url) :
    (Subreddit.submit reddit s title selftext url resubmit send_replies).trace
      = [] ∧
    (Subreddit.submit reddit s title selftext url resubmit send_replies).result
      = Except.error
          (PyErr.typeError "Either selftext or url must be provided.") := by
  simp [Subreddit.submit, h]

/-- Witness for C1 at a concrete input: both arguments absent. -/
theorem C1_submit_mutual_exclusion_witness :
    (Subreddit.submit stubReddit stubSub "t" Option.none Option.none
        true true).trace = [] ∧
    (Subreddit.submit stubReddit stubSub "t" Option.none Option.none
        true true).result
      = Except.error
          (PyErr.typeError "Either selftext or url must be provided.") :=
  C1_submit_mutual_exclusion stubReddit stubSub "t" Option.none Option.none
    true true rfl

/-- Claim C2: for every title and non-empty selftext, `submit` (with default
`resubmit` and `send_replies`, both true) issues exactly one POST to the
`submit` endpoint whose payload is exactly
`sr, resubmit=true, sendreplies=true, title, kind=self, text=selftext`, and
returns exactly the decoded response body of the transport for that request;
with no selftext and a non-empty url the payload instead ends with
`kind=link, url`. -/
theorem C2_submit_payload (reddit : Reddit) (s : Subreddit)
    (title sel u : String) (hsel : sel ≠ "") (hu : u ≠ "") :
    ((Subreddit.submit reddit s title (Option.some sel) Option.none
        true true).trace
      = [Request.post (Url.mk "submit" [])
          [("sr", Val.str s.str), ("resubmit", Val.bool true),
           ("sendreplies", Val.bool true), ("title", Val.str title),
           ("kind", Val.str "self"), ("text", Val.str sel)]] ∧
     (Subreddit.submit reddit s title (Option.some sel) Option.none
        true true).result
      = Except.ok (reddit.post (Url.mk "submit" [])
          [("sr", Val.str s.str), ("resubmit", Val.bool true),
           ("sendreplies", Val.bool true), ("title", Val.str title),
           ("kind", Val.str "self"), ("text", Val.str sel)])) ∧
    ((Subreddit.submit reddit s title Option.none (Option.some u)
        true true).trace
      = [Request.post (Url.mk "submit" [])
          [("sr", Val.str s.str), ("resubmit", Val.bool true),
           ("sendreplies", Val.bool true), ("title", Val.str title),
           ("kind", Val.str "link"), ("url", Val.str u)]] ∧
     (Subreddit.submit reddit s title Option.none (Option.some u)
        true true).result
      = Except.ok (reddit.post (Url.mk "submit" [])
          [("sr", Val.str s.str), ("resubmit", Val.bool true),
           ("sendreplies", Val.bool true), ("title", Val.str title),
           ("kind", Val.str "link"), ("url", Val.str u)])) := by
  refine ⟨⟨?_, ?_⟩, ?_, ?_⟩ <;>
    simp [Subreddit.submit, truthyStr, String.isEmpty_iff, hsel, hu]

/-- Witness for C2 at a concrete input: title `title`, selftext `body`,
url `http://x`. -/
theorem C2_submit_payload_witness :
    ((Subreddit.submit stubReddit stubSub "title" (Option.some "body")
        Option.none true true).trace
      = [Request.post (Url.mk "submit" [])
          [("sr", Val.str stubSub.str), ("resubmit", Val.bool true),
           ("sendreplies", Val.bool true), ("title", Val.str "title"),
           ("kind", Val.str "self"), ("text", Val.str "body")]] ∧
     (Subreddit.submit stubReddit stubSub "title" (Option.some "body")
        Option.none true true).result
      = Except.ok (stubReddit.post (Url.mk "submit" [])
          [("sr", Val.str stubSub.str), ("resubmit", Val.bool true),
           ("sendreplies", Val.bool true), ("title", Val.str "title"),
           ("kind", Val.str "self"), ("text", Val.str "body")])) ∧
    ((Subreddit.submit stubReddit stubSub "title" Option.none
        (Option.some "http://x") true true).trace
      = [Request.post (Url.mk "submit" [])
          [("sr", Val.str stubSub.str), ("resubmit", Val.bool true),
           ("sendreplies", Val.bool true), ("title", Val.str "title"),
           ("kind", Val.str "link"), ("url", Val.str "http://x")]] ∧
     (Subreddit.submit stubReddit stubSub "title" Option.none
        (Option.some "http://x") true true).result
      = Except.ok (stubReddit.post (Url.mk "submit" [])
          [("sr", Val.str stubSub.str), ("resubmit", Val.bool true),
           ("sendreplies", Val.bool true), ("title", Val.str "title"),
           ("kind", Val.str "link"), ("url", Val.str "http://x")])) :=
  C2_submit_payload stubReddit stubSub "title" "body" "http://x"
    (by decide) (by decide)

/-- Claim C10: with `selftext` the empty string and a non-empty `url`, the
mutual-exclusion check of `submit` passes (the empty string is falsy), and
because the payload branch tests `selftext is not None`, the request is built
with `kind=self` and `text` empty while the supplied url does not occur in
the payload; with only the empty-string `selftext` and no url, `submit`
raises `TypeError` even though a selftext argument was supplied. -/
theorem C10_submit_empty_selftext (reddit : Reddit) (s : Subreddit)
    (title u : String) (hu : u ≠ "") :
    (Subreddit.submit reddit s title (Option.some "") (Option.some u)
        true true).trace
      = [Request.post (Url.mk "submit" [])
          [("sr", Val.str s.str), ("resubmit", Val.bool true),
           ("sendreplies", Val.bool true), ("title", Val.str title),
           ("kind", Val.str "self"), ("text", Val.str "")]] ∧
    (Subreddit.submit reddit s title (Option.some "") (Option.some u)
        true true).result
      = Except.ok (reddit.post (Url.mk "submit" [])
          [("sr", Val.str s.str), ("resubmit", Val.bool true),
           ("sendreplies", Val.bool true), ("title", Val.str title),
           ("kind", Val.str "self"), ("text", Val.str "")]) ∧
    (Subreddit.submit reddit s title (Option.some "") Option.none
        true true).trace = [] ∧
    (Subreddit.submit reddit s title (Option.some "") Option.none
        true true).result
      = Except.error
          (PyErr.typeError "Either selftext or url must be provided.") := by
  have h0 : ("" : String).isEmpty = true := rfl
  refine ⟨?_, ?_, ?_, ?_⟩ <;>
    simp [Subreddit.submit, truthyStr, String.isEmpty_iff, h0, hu]

/-- Witness for C10 at a concrete input: url `http://x`. -/
theorem C10_submit_empty_selftext_witness :
    (Subreddit.submit stubReddit stubSub "t" (Option.some "")
        (Option.some "http://x") true true).trace
      = [Request.post (Url.mk "submit" [])
          [("sr", Val.str stubSub.str), ("resubmit", Val.bool true),
           ("sendreplies", Val.bool true), ("title", Val.str "t"),
           ("kind", Val.str "self"), ("text", Val.str "")]] ∧
    (Subreddit.submit stubReddit stubSub "t" (Option.some "")
        (Option.some "http://x") true true).result
      = Except.ok (stubReddit.post (Url.mk "submit" [])
          [("sr", Val.str stubSub.str), ("resubmit", Val.bool true),
           ("sendreplies", Val.bool true), ("title", Val.str "t"),
           ("kind", Val.str "self"), ("text", Val.str "")]) ∧
    (Subreddit.submit stubReddit stubSub "t" (Option.some "")
        Option.none true true).trace = [] ∧
    (Subreddit.submit stubReddit stubSub "t" (Option.some "")
        Option.none true true).result
      = Except.error
          (PyErr.typeError "Either selftext or url must be provided.") :=
  C10_submit_empty_selftext stubReddit stubSub "t" "http://x" (by decide)

/-- Claim C3: constructing a `Subreddit` with both a display name and a data
bundle supplied, or with neither supplied (Python truthiness, under which a
supplied value is non-empty), raises `TypeError`; with exactly one supplied,
construction succeeds and returns the object aggregate. -/
theorem C3_init_mutual_exclusion (reddit : Reddit) (dn : Option String)
    (d : Option DataBundle) :
    (truthyStr dn = truthyData d →
      Subreddit.init reddit dn d
        = Except.error
            (PyErr.typeError
              "Either display_name or _data must be provided.")) ∧
    (truthyStr dn ≠ truthyData d →
      ∃ st : SubredditState, Subreddit.init reddit dn d = Except.ok st) := by
  constructor
  · intro h
    simp [Subreddit.init, h]
  · intro h
    rw [Subreddit.init.eq_def, if_neg h]
    exact ⟨_, rfl⟩

/-- Witness for C3 at concrete inputs: neither supplied raises, a display
name alone succeeds. -/
theorem C3_init_mutual_exclusion_witness :
    (Subreddit.init stubReddit Option.none Option.none
      = Except.error
          (PyErr.typeError "Either display_name or _data must be provided.")) ∧
    (∃ st : SubredditState,
      Subreddit.init stubReddit (Option.some "redditdev") Option.none
        = Except.ok st) :=
  ⟨(C3_init_mutual_exclusion stubReddit Option.none Option.none).1 rfl,
   (C3_init_mutual_exclusion stubReddit (Option.some "redditdev")
      Option.none).2 (by decide)⟩

/-- Claim C4: every flair or relationship view starts with counter 0 at
construction; each full iteration sends `unique` equal to the current counter
(so the first iteration sends 0) and increments the counter by exactly one;
and no other operation (flair set, relationship add or remove) changes a
counter — hence the sent value strictly increases across successive full
iterations of the same view instance and is never reset or decreased. -/
theorem C4_unique_counter (reddit : Reddit) (dn : Option String)
    (d : Option DataBundle) (st : SubredditState)
    (h : Subreddit.init reddit dn d = Except.ok st)
    (f : SubredditFlair) (r : SubredditRelationship) (thing : Thing)
    (text css_class : String) :
    (st.flair._unique_counter = 0 ∧
     st.banned._unique_counter = 0 ∧
     st.contributor._unique_counter = 0 ∧
     st.moderator._unique_counter = 0 ∧
     st.muted._unique_counter = 0 ∧
     st.wikibanned._unique_counter = 0 ∧
     st.wikicontributor._unique_counter = 0) ∧
    ((SubredditFlair.iter reddit f).2.trace
      = [Request.listing
          (Url.mk "flairlist" [("subreddit", f.subreddit.str)])
          [("unique", Val.nat f._unique_counter)]] ∧
     (SubredditFlair.iter reddit f).1._unique_counter
      = f._unique_counter + 1) ∧
    ((SubredditRelationship.iter reddit r).2.trace
      = [Request.get
          (Url.mk r.relationship [("subreddit", r.subreddit.str)])
          [("unique", Val.nat r._unique_counter)]] ∧
     (SubredditRelationship.iter reddit r).1._unique_counter
      = r._unique_counter + 1) ∧
    ((SubredditFlair.set reddit f thing text css_class).1._unique_counter
      = f._unique_counter ∧
     (SubredditRelationship.add reddit r thing).1._unique_counter
      = r._unique_counter ∧
     (SubredditRelationship.remove reddit r thing).1._unique_counter
      = r._unique_counter) := by
  rw [Subreddit.init.eq_def] at h
  split at h
  · exact Except.noConfusion h
  · simp only [Except.ok.injEq] at h
    subst h
    exact ⟨⟨rfl, rfl, rfl, rfl, rfl, rfl, rfl⟩, ⟨rfl, rfl⟩, ⟨rfl, rfl⟩,
           rfl, rfl, rfl⟩

/-- Witness for C4 at concrete inputs: the state constructed from the display
name `redditdev`, its own flair and banned views, a concrete target. -/
theorem C4_unique_counter_witness :
    ((stubState.flair._unique_counter = 0 ∧
      stubState.banned._unique_counter = 0 ∧
      stubState.contributor._unique_counter = 0 ∧
      stubState.moderator._unique_counter = 0 ∧
      stubState.muted._unique_counter = 0 ∧
      stubState.wikibanned._unique_counter = 0 ∧
      stubState.wikicontributor._unique_counter = 0) ∧
     ((SubredditFlair.iter stubReddit stubState.flair).2.trace
       = [Request.listing
           (Url.mk "flairlist"
             [("subreddit", stubState.flair.subreddit.str)])
           [("unique", Val.nat stubState.flair._unique_counter)]] ∧
      (SubredditFlair.iter stubReddit stubState.flair).1._unique_counter
       = stubState.flair._unique_counter + 1) ∧
     ((SubredditRelationship.iter stubReddit stubState.banned).2.trace
       = [Request.get
           (Url.mk stubState.banned.relationship
             [("subreddit", stubState.banned.subreddit.str)])
           [("unique", Val.nat stubState.banned._unique_counter)]] ∧
      (SubredditRelationship.iter stubReddit
          stubState.banned).1._unique_counter
       = stubState.banned._unique_counter + 1) ∧
     ((SubredditFlair.set stubReddit stubState.flair stubRedditor ""
          "").1._unique_counter
       = stubState.flair._unique_counter ∧
      (SubredditRelationship.add stubReddit stubState.banned
          stubRedditor).1._unique_counter
       = stubState.banned._unique_counter ∧
      (SubredditRelationship.remove stubReddit stubState.banned
          stubRedditor).1._unique_counter
       = stubState.banned._unique_counter)) :=
  C4_unique_counter stubReddit (Option.some "redditdev") Option.none
    stubState rfl stubState.flair stubState.banned stubRedditor "" ""

/-- Claim C5: `SubredditFlair.set` with a target whose runtime class name is
`Submission` POSTs to the `flair` endpoint the payload
`css_class, text, link = fullname` (which contains no `name` key); with any
other target it POSTs `css_class, text, name = str(target)` (which contains
no `link` key). -/
theorem C5_flair_set_target (reddit : Reddit) (f : SubredditFlair)
    (thing : Thing) (text css_class : String) :
    (thing.className = "Submission" →
      (SubredditFlair.set reddit f thing text css_class).2.trace
        = [Request.post (Url.mk "flair" [("subreddit", f.subreddit.str)])
            [("css_class", Val.str css_class), ("text", Val.str text),
             ("link", Val.str thing.fullname)]]) ∧
    (thing.className ≠ "Submission" →
      (SubredditFlair.set reddit f thing text css_class).2.trace
        = [Request.post (Url.mk "flair" [("subreddit", f.subreddit.str)])
            [("css_class", Val.str css_class), ("text", Val.str text),
             ("name", Val.str thing.str)]]) := by
  constructor
  · intro h
    simp [SubredditFlair.set, h]
  · intro h
    simp [SubredditFlair.set, h]

/-- Witness for C5 at concrete inputs: a submission-like target and a
redditor target. -/
theorem C5_flair_set_target_witness :
    (SubredditFlair.set stubReddit stubState.flair stubSubmission "txt"
        "cls").2.trace
      = [Request.post
          (Url.mk "flair" [("subreddit", stubState.flair.subreddit.str)])
          [("css_class", Val.str "cls"), ("text", Val.str "txt"),
           ("link", Val.str stubSubmission.fullname)]] ∧
    (SubredditFlair.set stubReddit stubState.flair stubRedditor "txt"
        "cls").2.trace
      = [Request.post
          (Url.mk "flair" [("subreddit", stubState.flair.subreddit.str)])
          [("css_class", Val.str "cls"), ("text", Val.str "txt"),
           ("name", Val.str stubRedditor.str)]] :=
  ⟨(C5_flair_set_target stubReddit stubState.flair stubSubmission "txt"
      "cls").1 rfl,
   (C5_flair_set_target stubReddit stubState.flair stubRedditor "txt"
      "cls").2 (by decide)⟩

/-- Claim C6: `undistinguish(thing)` is the very call
`distinguish(thing, how=no)`: the whole observable outcome coincides, and in
particular the single request is a POST to the `distinguish` endpoint with
payload `how = no, id = thing.fullname`, with the same decoded response
returned. -/
theorem C6_undistinguish_eq_distinguish_no (reddit : Reddit)
    (m : SubredditModeration) (thing : Thing) :
    SubredditModeration.undistinguish reddit m thing
      = SubredditModeration.distinguish reddit m thing "no" ∧
    (SubredditModeration.undistinguish reddit m thing).2.trace
      = [Request.post (Url.mk "distinguish" [])
          [("how", Val.str "no"), ("id", Val.str thing.fullname)]] ∧
    (SubredditModeration.undistinguish reddit m thing).2.result
      = (SubredditModeration.distinguish reddit m thing "no").2.result :=
  ⟨rfl, rfl, rfl⟩

/-- Claim C8: `SubredditModeration.remove` with `spam=True` issues exactly
one POST to the `remove` endpoint with payload
`id = thing.fullname, spam = true`; with the default `spam=False` the payload
is `id = thing.fullname, spam = false`. -/
theorem C8_remove_spam (reddit : Reddit) (m : SubredditModeration)
    (thing : Thing) :
    (SubredditModeration.remove reddit m thing true).2.trace
      = [Request.post (Url.mk "remove" [])
          [("id", Val.str thing.fullname), ("spam", Val.bool true)]] ∧
    (SubredditModeration.remove reddit m thing false).2.trace
      = [Request.post (Url.mk "remove" [])
          [("id", Val.str thing.fullname), ("spam", Val.bool false)]] :=
  ⟨rfl, rfl⟩

/-- Claim C9: every action method — flair set, relationship add and remove,
and the six moderation operations — returns its receiver unchanged: the
record holding the path, display name, uniqueness counters and
back-references is exactly the one passed in, so no locally observable state
changes. -/
theorem C9_actions_frame (reddit : Reddit) (f : SubredditFlair)
    (r : SubredditRelationship) (m : SubredditModeration) (thing : Thing)
    (text css_class how : String) (spam : Bool) :
    (SubredditFlair.set reddit f thing text css_class).1 = f ∧
    (SubredditRelationship.add reddit r thing).1 = r ∧
    (SubredditRelationship.remove reddit r thing).1 = r ∧
    (SubredditModeration.approve reddit m thing).1 = m ∧
    (SubredditModeration.distinguish reddit m thing how).1 = m ∧
    (SubredditModeration.ignoreReports reddit m thing).1 = m ∧
    (SubredditModeration.remove reddit m thing spam).1 = m ∧
    (SubredditModeration.undistinguish reddit m thing).1 = m ∧
    (SubredditModeration.unignoreReports reddit m thing).1 = m :=
  ⟨rfl, rfl, rfl, rfl, rfl, rfl, rfl, rfl, rfl⟩

/-- Claim C7: for every valid (non-empty) display name, construction from
that name yields a derived path equal to the `subreddit` URL template with
the name substituted for the `subreddit` placeholder; and the path never
changes afterwards — every operation that returns an updated receiver leaves
the owning `Subreddit` record (hence its `_path`) untouched, and no operation
at all produces a modified `Subreddit`. -/
theorem C7_path_from_template (reddit : Reddit) (dn : String)
    (st : SubredditState) (hd : dn ≠ "")
    (h : Subreddit.init reddit (Option.some dn) Option.none = Except.ok st)
    (f : SubredditFlair) (r : SubredditRelationship) (thing : Thing)
    (text css_class : String) :
    st.subreddit._path = Url.mk "subreddit" [("subreddit", dn)] ∧
    st.flair.subreddit = st.subreddit ∧
    st.banned.subreddit = st.subreddit ∧
    (SubredditFlair.iter reddit f).1.subreddit = f.subreddit ∧
    (SubredditRelationship.iter reddit r).1.subreddit = r.subreddit ∧
    (SubredditFlair.set reddit f thing text css_class).1.subreddit
      = f.subreddit := by
  rw [Subreddit.init.eq_def] at h
  split at h
  · exact Except.noConfusion h
  · rename_i hc
    simp only [Except.ok.injEq] at h
    subst h
    have ht : truthyStr (Option.some dn) = true := truthyStr_some_of_ne dn hd
    refine ⟨?_, rfl, rfl, rfl, rfl, rfl⟩
    simp [ht]

/-- Witness for C7 at a concrete input: the display name `redditdev`. -/
theorem C7_path_from_template_witness :
    stubState.subreddit._path
      = Url.mk "subreddit" [("subreddit", "redditdev")] ∧
    stubState.flair.subreddit = stubState.subreddit ∧
    stubState.banned.subreddit = stubState.subreddit ∧
    (SubredditFlair.iter stubReddit stubState.flair).1.subreddit
      = stubState.flair.subreddit ∧
    (SubredditRelationship.iter stubReddit stubState.banned).1.subreddit
      = stubState.banned.subreddit ∧
    (SubredditFlair.set stubReddit stubState.flair stubRedditor ""
        "").1.subreddit
      = stubState.flair.subreddit :=
  C7_path_from_template stubReddit "redditdev" stubState (by decide) rfl
    stubState.flair stubState.banned stubRedditor "" ""
